import Mathlib

/-!
Verification of the LumenRTC frame-cryptor keyring
(`src/vendor/libwebrtc/src/rtc_frame_cryptor_impl.{h,cc}`).

The keyring (`DefaultKeyProviderImpl`) stores per-participant and shared
encryption keys in `std::map`s guarded by a single `std::mutex`; the
frame cryptor (`RTCFrameCryptorImpl`) holds per-cryptor enable/key-index
state.  Both are shallowly embedded below:

* `std::map<K, V>` becomes an association list `List (K × V)` with
  `mapFind` mirroring `map::find` and `mapSet` mirroring assignment
  through `operator[]` (insert-or-overwrite).
* `vector<uint8_t>` key material becomes `List Nat` (opaque bytes).
* Each keyring method returns, alongside its C++ return value and the
  post-state, a `Nat` counting how many times the method acquired the
  keyring's `mutex_` during the call (one per `std::lock_guard` executed).
  This makes the spec's locking discipline a provable statement.
  Note that `ExportSharedKey` (lines 39-46 of the .cc) contains no
  `lock_guard`: it is invoked by `ExportKey` while `ExportKey` already
  holds the non-recursive `mutex_`.
-/

namespace LumenRTC

/-- Opaque key bytes (`vector<uint8_t>`); emptiness is the only property
the keyring ever observes. -/
abbrev Key := List Nat

/-- Lookup as `map::find`: the value stored at `key`, or `none` when absent.
The association lists built by `mapSet` keep at most one entry per key. -/
def mapFind {α β : Type} [DecidableEq α] : List (α × β) → α → Option β
  | [], _ => none
  | (k, v) :: rest, key => if key = k then some v else mapFind rest key

/-- Assignment through `map::operator[]`: overwrite the entry at `key` when present,
otherwise append a fresh entry. -/
def mapSet {α β : Type} [DecidableEq α] : List (α × β) → α → β → List (α × β)
  | [], key, val => [(key, val)]
  | (k, v) :: rest, key, val =>
      if key = k then (key, val) :: rest else (k, v) :: mapSet rest key val

/-- The options struct consumed by `KeyProvider::Create`
(`{shared_key: bool}`, the only field the constructor reads). -/
structure KeyProviderOptions where
  shared_key : Bool
  deriving DecidableEq

/-- State of `DefaultKeyProviderImpl`
(fields of `rtc_frame_cryptor_impl.h`, lines 24-29; the `mutex_` field
is modelled by the acquisition counts returned by each method). -/
structure DefaultKeyProviderImpl where
  shared_key_ : Bool
  shared_keys_ : List (Int × Key)
  participant_keys_ : List (String × List (Int × Key))
  sif_trailer_ : Key
  deriving DecidableEq

/-- Constructor `DefaultKeyProviderImpl(KeyProviderOptions* options)`:
`shared_key_(options != nullptr && options->shared_key)`.  The nullable
pointer is an `Option`; the short-circuit `&&` never dereferences a null
pointer, so `none` yields `shared_key_ = false`.  All maps start empty. -/
def DefaultKeyProviderImpl.ofOptions (options : Option KeyProviderOptions) :
    DefaultKeyProviderImpl :=
  { shared_key_ :=
      match options with
      | none => false
      | some o => o.shared_key
    shared_keys_ := []
    participant_keys_ := []
    sif_trailer_ := [] }

/-- Factory `KeyProvider::Create(options)`: wraps the `DefaultKeyProviderImpl`
constructor (lines 138-140 of the .cc). -/
def KeyProvider.Create (options : Option KeyProviderOptions) :
    DefaultKeyProviderImpl :=
  DefaultKeyProviderImpl.ofOptions options

namespace DefaultKeyProviderImpl

/-- Method `SetSharedKey(index, key)` (.cc lines 29-33): under the lock, store
`key` at `shared_keys_[index]`, return `true`.
Result: (return value, post-state, mutex acquisitions). -/
def SetSharedKey (self : DefaultKeyProviderImpl) (index : Int) (key : Key) :
    Bool × DefaultKeyProviderImpl × Nat :=
  (true, { self with shared_keys_ := mapSet self.shared_keys_ index key }, 1)

/-- Method `ExportSharedKey(key_index)` (.cc lines 39-46): look up
`shared_keys_[key_index]`, returning `{}` when absent.  The body contains
no `lock_guard` (it runs under `ExportKey`'s lock when reached from
there), so its acquisition count is 0.  No state is written. -/
def ExportSharedKey (self : DefaultKeyProviderImpl) (key_index : Int) :
    Key × DefaultKeyProviderImpl × Nat :=
  (match mapFind self.shared_keys_ key_index with
   | none => []
   | some k => k,
   self, 0)

/-- Method `RatchetSharedKey(key_index)` (.cc lines 35-37): a bare delegation to
`ExportSharedKey`. -/
def RatchetSharedKey (self : DefaultKeyProviderImpl) (key_index : Int) :
    Key × DefaultKeyProviderImpl × Nat :=
  ExportSharedKey self key_index

/-- Method `SetKey(participant_id, index, key)` (.cc lines 48-53): under the
lock, `participant_keys_[participant_id][index] = key`; the outer
`operator[]` default-constructs an empty inner map when the participant
is new.  Returns `true`. -/
def SetKey (self : DefaultKeyProviderImpl) (participant_id : String)
    (index : Int) (key : Key) : Bool × DefaultKeyProviderImpl × Nat :=
  let inner :=
    match mapFind self.participant_keys_ participant_id with
    | none => []
    | some m => m
  (true,
   { self with
       participant_keys_ :=
         mapSet self.participant_keys_ participant_id (mapSet inner index key) },
   1)

/-- Method `ExportKey(participant_id, key_index)` (.cc lines 60-75): under the
lock, look up the participant's map, then the key at `key_index`; on
either miss fall back to `ExportSharedKey` only when `shared_key_` is
set, otherwise return an empty vector.  The fallback call runs while the
lock is already held and itself acquires nothing. -/
def ExportKey (self : DefaultKeyProviderImpl) (participant_id : String)
    (key_index : Int) : Key × DefaultKeyProviderImpl × Nat :=
  match mapFind self.participant_keys_ participant_id with
  | none =>
      if self.shared_key_ then
        let inner := ExportSharedKey self key_index
        (inner.1, self, 1 + inner.2.2)
      else
        ([], self, 1)
  | some keys =>
      match mapFind keys key_index with
      | none =>
          if self.shared_key_ then
            let inner := ExportSharedKey self key_index
            (inner.1, self, 1 + inner.2.2)
          else
            ([], self, 1)
      | some k => (k, self, 1)

/-- Method `RatchetKey(participant_id, key_index)` (.cc lines 55-58): a bare
delegation to `ExportKey`. -/
def RatchetKey (self : DefaultKeyProviderImpl) (participant_id : String)
    (key_index : Int) : Key × DefaultKeyProviderImpl × Nat :=
  ExportKey self participant_id key_index

/-- Method `SetSifTrailer(trailer)` (.cc lines 77-80): under the lock, overwrite
`sif_trailer_`.  Returns `void`. -/
def SetSifTrailer (self : DefaultKeyProviderImpl) (trailer : Key) :
    DefaultKeyProviderImpl × Nat :=
  ({ self with sif_trailer_ := trailer }, 1)

end DefaultKeyProviderImpl

/-- One invocation of a public `DefaultKeyProviderImpl` method, used to
quantify over the keyring's public surface. -/
inductive KeyringCall where
  | setSharedKey (index : Int) (key : Key)
  | ratchetSharedKey (key_index : Int)
  | exportSharedKey (key_index : Int)
  | setKey (participant_id : String) (index : Int) (key : Key)
  | ratchetKey (participant_id : String) (key_index : Int)
  | exportKey (participant_id : String) (key_index : Int)
  | setSifTrailer (trailer : Key)

/-- How many times the given public call acquires the keyring's `mutex_`
when executed against state `kr` (projection of each method's count). -/
def lockAcquisitions (kr : DefaultKeyProviderImpl) : KeyringCall → Nat
  | .setSharedKey i k => (kr.SetSharedKey i k).2.2
  | .ratchetSharedKey i => (kr.RatchetSharedKey i).2.2
  | .exportSharedKey i => (kr.ExportSharedKey i).2.2
  | .setKey p i k => (kr.SetKey p i k).2.2
  | .ratchetKey p i => (kr.RatchetKey p i).2.2
  | .exportKey p i => (kr.ExportKey p i).2.2
  | .setSifTrailer t => (kr.SetSifTrailer t).2

/-- Opaque handle to the peer-connection factory passed to the cryptor
constructors (never dereferenced by this component). -/
abbrev RTCPeerConnectionFactoryRef := Nat

/-- Opaque handle to an `RTCRtpSender`. -/
abbrev RTCRtpSenderRef := Nat

/-- Opaque handle to an `RTCRtpReceiver`. -/
abbrev RTCRtpReceiverRef := Nat

/-- Opaque handle to an `RTCFrameCryptorObserver`. -/
abbrev RTCFrameCryptorObserverRef := Nat

/-- The algorithm selector enum, opaque to this component. -/
structure Algorithm where
  tag : Nat
  deriving DecidableEq

/-- State of `RTCFrameCryptorImpl`: exactly the fields declared in
`rtc_frame_cryptor_impl.h` lines 57-62 (`participant_id_`, `enabled_`,
`key_index_`, `observer_`; the `mutex_` field guards them at runtime).
The header declares no field for the key provider, the sender or the
receiver. -/
structure RTCFrameCryptorImpl where
  participant_id_ : String
  enabled_ : Bool
  key_index_ : Int
  observer_ : Option RTCFrameCryptorObserverRef
  deriving DecidableEq

/-- Sender-bound constructor (.cc lines 82-91): the initializer list sets
`participant_id_`, `enabled_(false)`, `key_index_(0)`; the body discards
`factory`, `algorithm`, `key_provider` and `sender` with `(void)` casts,
storing none of them.  `observer_` default-constructs to null. -/
def RTCFrameCryptorImpl.fromSender (factory : RTCPeerConnectionFactoryRef)
    (participant_id : String) (algorithm : Algorithm)
    (key_provider : DefaultKeyProviderImpl) (sender : RTCRtpSenderRef) :
    RTCFrameCryptorImpl :=
  { participant_id_ := participant_id
    enabled_ := false
    key_index_ := 0
    observer_ := none }

/-- Receiver-bound constructor (.cc lines 93-103): identical to the
sender-bound one, discarding `factory`, `algorithm`, `key_provider` and
`receiver`. -/
def RTCFrameCryptorImpl.fromReceiver (factory : RTCPeerConnectionFactoryRef)
    (participant_id : String) (algorithm : Algorithm)
    (key_provider : DefaultKeyProviderImpl) (receiver : RTCRtpReceiverRef) :
    RTCFrameCryptorImpl :=
  { participant_id_ := participant_id
    enabled_ := false
    key_index_ := 0
    observer_ := none }

namespace RTCFrameCryptorImpl

/-- Method `SetEnabled(enabled)` (.cc lines 105-109): under the cryptor's lock,
store the flag; always returns `true`. -/
def SetEnabled (self : RTCFrameCryptorImpl) (enabled : Bool) :
    Bool × RTCFrameCryptorImpl :=
  (true, { self with enabled_ := enabled })

/-- Method `enabled()` (.cc lines 111-114): read `enabled_` under the lock. -/
def enabled (self : RTCFrameCryptorImpl) : Bool :=
  self.enabled_

/-- Method `SetKeyIndex(index)` (.cc lines 116-120): under the lock, store the
index; always returns `true`. -/
def SetKeyIndex (self : RTCFrameCryptorImpl) (index : Int) :
    Bool × RTCFrameCryptorImpl :=
  (true, { self with key_index_ := index })

/-- Method `key_index()` (.cc lines 122-125): read `key_index_` under the lock. -/
def key_index (self : RTCFrameCryptorImpl) : Int :=
  self.key_index_

/-- Method `RegisterRTCFrameCryptorObserver(observer)` (.cc lines 127-131):
replace the stored observer reference. -/
def RegisterRTCFrameCryptorObserver (self : RTCFrameCryptorImpl)
    (observer : RTCFrameCryptorObserverRef) : RTCFrameCryptorImpl :=
  { self with observer_ := some observer }

/-- Method `DeRegisterRTCFrameCryptorObserver()` (.cc lines 133-136): clear the
stored observer reference. -/
def DeRegisterRTCFrameCryptorObserver (self : RTCFrameCryptorImpl) :
    RTCFrameCryptorImpl :=
  { self with observer_ := none }

end RTCFrameCryptorImpl

/-! ## Helper lemmas -/

/-- Looking up a key right after setting it yields the value just
stored (`operator[]` assignment followed by `find`). -/
theorem mapFind_mapSet_self {α β : Type} [DecidableEq α]
    (m : List (α × β)) (k : α) (v : β) :
    mapFind (mapSet m k v) k = some v := by
  induction m with
  | nil => simp [mapSet, mapFind]
  | cons hd tl ih =>
      obtain ⟨k', v'⟩ := hd
      by_cases h : k = k'
      · simp [mapSet, mapFind, h]
      · simp [mapSet, mapFind, h, ih]

/-- Lemma: `ExportKey` acquires the mutex exactly once, in every branch. -/
theorem ExportKey_locks_once (kr : DefaultKeyProviderImpl)
    (pid : String) (idx : Int) :
    (kr.ExportKey pid idx).2.2 = 1 := by
  rcases h1 : mapFind kr.participant_keys_ pid with _ | keys
  · by_cases hs : kr.shared_key_ <;>
      simp [DefaultKeyProviderImpl.ExportKey, h1, hs,
        DefaultKeyProviderImpl.ExportSharedKey]
  · rcases h2 : mapFind keys idx with _ | k
    · by_cases hs : kr.shared_key_ <;>
        simp [DefaultKeyProviderImpl.ExportKey, h1, h2, hs,
          DefaultKeyProviderImpl.ExportSharedKey]
    · simp [DefaultKeyProviderImpl.ExportKey, h1, h2]

/-- Lemma: `ExportKey` writes no state: the keyring component of its result is
the input keyring, in every branch. -/
theorem ExportKey_state_eq (kr : DefaultKeyProviderImpl)
    (pid : String) (idx : Int) :
    (kr.ExportKey pid idx).2.1 = kr := by
  rcases h1 : mapFind kr.participant_keys_ pid with _ | keys
  · by_cases hs : kr.shared_key_ <;>
      simp [DefaultKeyProviderImpl.ExportKey, h1, hs,
        DefaultKeyProviderImpl.ExportSharedKey]
  · rcases h2 : mapFind keys idx with _ | k
    · by_cases hs : kr.shared_key_ <;>
        simp [DefaultKeyProviderImpl.ExportKey, h1, h2, hs,
          DefaultKeyProviderImpl.ExportSharedKey]
    · simp [DefaultKeyProviderImpl.ExportKey, h1, h2]

/-- Lemma: `ExportKey` on a keyring whose two key maps are both empty
returns the empty sequence, whatever `shared_key_` is. -/
theorem ExportKey_empty_maps (kr : DefaultKeyProviderImpl)
    (h1 : kr.participant_keys_ = []) (h2 : kr.shared_keys_ = [])
    (pid : String) (i : Int) :
    (kr.ExportKey pid i).1 = [] := by
  by_cases hs : kr.shared_key_ <;>
    simp [DefaultKeyProviderImpl.ExportKey, h1, h2, mapFind, hs,
      DefaultKeyProviderImpl.ExportSharedKey]

/-! ## Claims -/

/-- Claim C1: when no participant-specific key is stored for
`(participant_id, index)` — the participant has no entry at all, or has
no key at that index — `ExportKey` returns the stored shared key at that
index (`ExportSharedKey`) when the keyring was constructed with
`shared_key_enabled = true`, and an empty byte sequence when it was
constructed with `shared_key_enabled = false`. -/
theorem C1_exportKey_shared_fallback (kr : DefaultKeyProviderImpl)
    (pid : String) (idx : Int)
    (h : mapFind kr.participant_keys_ pid = none ∨
      ∃ keys, mapFind kr.participant_keys_ pid = some keys ∧
        mapFind keys idx = none) :
    (kr.ExportKey pid idx).1 =
      if kr.shared_key_ then (kr.ExportSharedKey idx).1 else [] := by
  rcases h with h1 | ⟨keys, h1, h2⟩
  · by_cases hs : kr.shared_key_ <;>
      simp [DefaultKeyProviderImpl.ExportKey, h1, hs]
  · by_cases hs : kr.shared_key_ <;>
      simp [DefaultKeyProviderImpl.ExportKey, h1, h2, hs]

/-- Witness for C1: a keyring created with `shared_key = true`, after
`SetSharedKey(3, [7])`, exports the shared key for the unprovisioned pair
`("alice", 3)`. -/
theorem C1_exportKey_shared_fallback_witness :
    ((((KeyProvider.Create (some ⟨true⟩)).SetSharedKey 3 [7]).2.1).ExportKey
        "alice" 3).1 =
      if (((KeyProvider.Create (some ⟨true⟩)).SetSharedKey 3 [7]).2.1).shared_key_
      then ((((KeyProvider.Create (some ⟨true⟩)).SetSharedKey 3 [7]).2.1).ExportSharedKey 3).1
      else [] :=
  C1_exportKey_shared_fallback
    (((KeyProvider.Create (some ⟨true⟩)).SetSharedKey 3 [7]).2.1) "alice" 3
    (Or.inl (by decide))

/-- Claim C2: `SetKey(participant_id, index, key)` followed by
`ExportKey(participant_id, index)` returns exactly `key`, and
`SetSharedKey(index, key)` followed by `ExportSharedKey(index)` returns
exactly `key`, from any prior keyring state — in particular, when the
same slot was set before, the last write wins. -/
theorem C2_set_export_roundtrip (kr kr2 : DefaultKeyProviderImpl)
    (pid : String) (idx i : Int) (key k : Key) :
    (((kr.SetKey pid idx key).2.1).ExportKey pid idx).1 = key ∧
    (((kr2.SetSharedKey i k).2.1).ExportSharedKey i).1 = k := by
  constructor
  · simp [DefaultKeyProviderImpl.SetKey, DefaultKeyProviderImpl.ExportKey,
      mapFind_mapSet_self]
  · simp [DefaultKeyProviderImpl.SetSharedKey,
      DefaultKeyProviderImpl.ExportSharedKey, mapFind_mapSet_self]

/-- Claim C3: a stored participant-specific key `K1` at
`(participant_id, index)` is what `ExportKey` returns, for every keyring
state — hence regardless of `shared_key_enabled` and of any shared key
stored at the same index. -/
theorem C3_participant_key_precedence (kr : DefaultKeyProviderImpl)
    (pid : String) (idx : Int) (K1 : Key) (keys : List (Int × Key))
    (h1 : mapFind kr.participant_keys_ pid = some keys)
    (h2 : mapFind keys idx = some K1) :
    (kr.ExportKey pid idx).1 = K1 := by
  simp [DefaultKeyProviderImpl.ExportKey, h1, h2]

/-- Witness for C3: with shared keys enabled, after
`SetKey("alice", 3, [1])` then `SetSharedKey(3, [2])`, `ExportKey`
still returns `[1]`. -/
theorem C3_participant_key_precedence_witness :
    ((((((KeyProvider.Create (some ⟨true⟩)).SetKey "alice" 3 [1]).2.1
          ).SetSharedKey 3 [2]).2.1).ExportKey "alice" 3).1 = [1] :=
  C3_participant_key_precedence
    (((((KeyProvider.Create (some ⟨true⟩)).SetKey "alice" 3 [1]).2.1
        ).SetSharedKey 3 [2]).2.1)
    "alice" 3 [1] [(3, [1])] (by decide) (by decide)

/-- Claim C4: `RatchetKey` returns exactly what `ExportKey` returns and
`RatchetSharedKey` exactly what `ExportSharedKey` returns (same value,
same post-state, same lock count), and none of the four reads mutates any
keyring state — keys, shared keys and sif trailer are unchanged: ratchet
is a pure passthrough with no derivation or rotation. -/
theorem C4_ratchet_pure_passthrough (kr : DefaultKeyProviderImpl)
    (pid : String) (idx : Int) :
    kr.RatchetKey pid idx = kr.ExportKey pid idx ∧
    kr.RatchetSharedKey idx = kr.ExportSharedKey idx ∧
    (kr.RatchetKey pid idx).2.1 = kr ∧
    (kr.RatchetSharedKey idx).2.1 = kr ∧
    (kr.ExportKey pid idx).2.1 = kr ∧
    (kr.ExportSharedKey idx).2.1 = kr :=
  ⟨rfl, rfl, ExportKey_state_eq kr pid idx, rfl,
    ExportKey_state_eq kr pid idx, rfl⟩

/-- Counterexample to claim C5: two sender-bound constructions that differ
in factory, algorithm, key provider and sender produce identical cryptor
states, although the two key providers differ — so the constructed
FrameCryptor retains neither a reference to the keyring passed at
construction nor a bound target (the constructors discard both with
`(void)` casts and the class declares no field for them). -/
theorem C5_counterexample :
    RTCFrameCryptorImpl.fromSender 0 "alice" ⟨0⟩
        (KeyProvider.Create (some ⟨true⟩)) 0 =
      RTCFrameCryptorImpl.fromSender 1 "alice" ⟨1⟩ (KeyProvider.Create none) 1 ∧
    KeyProvider.Create (some ⟨true⟩) ≠ KeyProvider.Create none :=
  ⟨rfl, by decide⟩

/-- Claim C5 as amended: both constructors accept the keyring and the
sender/receiver argument but retain neither; the state they build holds
only the participant id (plus default `enabled`/`key_index`/`observer`
fields), identically for the sender-bound and the receiver-bound variant
and independently of factory, algorithm, key provider and bound
target. -/
theorem C5_constructor_retains_only_participant_id
    (f f2 : RTCPeerConnectionFactoryRef) (pid : String)
    (alg alg2 : Algorithm) (kp kp2 : DefaultKeyProviderImpl)
    (s : RTCRtpSenderRef) (r : RTCRtpReceiverRef) :
    RTCFrameCryptorImpl.fromSender f pid alg kp s =
      { participant_id_ := pid, enabled_ := false, key_index_ := 0,
        observer_ := none } ∧
    RTCFrameCryptorImpl.fromReceiver f2 pid alg2 kp2 r =
      { participant_id_ := pid, enabled_ := false, key_index_ := 0,
        observer_ := none } :=
  ⟨rfl, rfl⟩

/-- Counterexample to claim C6: `ExportSharedKey` acquires the keyring's
mutex zero times (its body contains no `lock_guard`; it is reached from
`ExportKey` while that method already holds the non-recursive mutex), so
it is not the case that every public keyring operation acquires the
mutex. -/
theorem C6_counterexample :
    lockAcquisitions (KeyProvider.Create none) (.exportSharedKey 0) = 0 ∧
    ¬ ∀ (kr : DefaultKeyProviderImpl) (c : KeyringCall),
        1 ≤ lockAcquisitions kr c := by
  refine ⟨rfl, fun h => ?_⟩
  exact absurd (h (KeyProvider.Create none) (.exportSharedKey 0)) (by decide)

/-- Claim C6 as amended: the mutating operations and the participant-key
reads (`SetSharedKey`, `SetKey`, `ExportKey`, `RatchetKey`,
`SetSifTrailer`) each acquire the keyring's single mutex exactly once,
but `ExportSharedKey` and `RatchetSharedKey` acquire it zero times — a
direct call to them is not serialized against concurrent writers (when
reached through `ExportKey` they do run under `ExportKey`'s lock). -/
theorem C6_locking_discipline (kr : DefaultKeyProviderImpl) (pid : String)
    (i : Int) (k t : Key) :
    lockAcquisitions kr (.setSharedKey i k) = 1 ∧
    lockAcquisitions kr (.setKey pid i k) = 1 ∧
    lockAcquisitions kr (.exportKey pid i) = 1 ∧
    lockAcquisitions kr (.ratchetKey pid i) = 1 ∧
    lockAcquisitions kr (.setSifTrailer t) = 1 ∧
    lockAcquisitions kr (.exportSharedKey i) = 0 ∧
    lockAcquisitions kr (.ratchetSharedKey i) = 0 :=
  ⟨rfl, rfl, ExportKey_locks_once kr pid i, ExportKey_locks_once kr pid i,
    rfl, rfl, rfl⟩

/-- Claim C7: immediately after construction by either constructor, and
before any setter is called, `enabled()` returns `false` and
`key_index()` returns `0`. -/
theorem C7_defaults_after_construction (f f2 : RTCPeerConnectionFactoryRef)
    (pid pid2 : String) (alg alg2 : Algorithm)
    (kp kp2 : DefaultKeyProviderImpl) (s : RTCRtpSenderRef)
    (r : RTCRtpReceiverRef) :
    (RTCFrameCryptorImpl.fromSender f pid alg kp s).enabled = false ∧
    (RTCFrameCryptorImpl.fromSender f pid alg kp s).key_index = 0 ∧
    (RTCFrameCryptorImpl.fromReceiver f2 pid2 alg2 kp2 r).enabled = false ∧
    (RTCFrameCryptorImpl.fromReceiver f2 pid2 alg2 kp2 r).key_index = 0 :=
  ⟨rfl, rfl, rfl, rfl⟩

/-- Claim C8: the mutators `SetSharedKey`, `SetKey`, `SetEnabled` and
`SetKeyIndex` return `true` on every input (no validation failure path),
and a missing key is signalled solely by an empty byte sequence from the
export/ratchet reads — on a freshly created keyring (any options) all
four reads return `[]`.  Every operation is a total function into its
return type: there is no error kind, exception or panic channel. -/
theorem C8_no_error_paths (kr : DefaultKeyProviderImpl)
    (fc : RTCFrameCryptorImpl) (pid : String) (i idx : Int) (k : Key)
    (b : Bool) (opts : Option KeyProviderOptions) :
    (kr.SetSharedKey i k).1 = true ∧
    (kr.SetKey pid i k).1 = true ∧
    (fc.SetEnabled b).1 = true ∧
    (fc.SetKeyIndex idx).1 = true ∧
    ((KeyProvider.Create opts).ExportKey pid i).1 = [] ∧
    ((KeyProvider.Create opts).ExportSharedKey i).1 = [] ∧
    ((KeyProvider.Create opts).RatchetKey pid i).1 = [] ∧
    ((KeyProvider.Create opts).RatchetSharedKey i).1 = [] := by
  refine ⟨rfl, rfl, rfl, rfl, ?_, rfl, ?_, rfl⟩ <;>
    exact ExportKey_empty_maps (KeyProvider.Create opts) rfl rfl pid i

/-- Claim C9: creating a keyring through `KeyProvider::Create` with a
null options pointer is accepted (the short-circuit
`options != nullptr && options->shared_key` never dereferences the null
pointer, which the `Option` embedding makes structural) and yields
`shared_key_ = false`; and for any keyring with `shared_key_ = false`,
`ExportKey` never falls back to a shared key — its result is determined
by the participant map alone, empty on any miss. -/
theorem C9_null_options_no_fallback (pid : String) (idx : Int)
    (kr : DefaultKeyProviderImpl) (h : kr.shared_key_ = false) :
    (KeyProvider.Create none).shared_key_ = false ∧
    (kr.ExportKey pid idx).1 =
      (match mapFind kr.participant_keys_ pid with
       | none => []
       | some keys =>
         match mapFind keys idx with
         | none => []
         | some k => k) := by
  refine ⟨rfl, ?_⟩
  rcases h1 : mapFind kr.participant_keys_ pid with _ | keys
  · simp [DefaultKeyProviderImpl.ExportKey, h1, h]
  · rcases h2 : mapFind keys idx with _ | k <;>
      simp [DefaultKeyProviderImpl.ExportKey, h1, h2, h]

/-- Witness for C9: the keyring created from a null options pointer has
`shared_key_ = false`, and even after `SetSharedKey(3, [9])` its
`ExportKey("alice", 3)` ignores the stored shared key. -/
theorem C9_null_options_no_fallback_witness :
    (KeyProvider.Create none).shared_key_ = false ∧
    ((((KeyProvider.Create none).SetSharedKey 3 [9]).2.1).ExportKey
        "alice" 3).1 =
      (match mapFind
          (((KeyProvider.Create none).SetSharedKey 3 [9]).2.1).participant_keys_
          "alice" with
       | none => []
       | some keys =>
         match mapFind keys 3 with
         | none => []
         | some k => k) :=
  C9_null_options_no_fallback "alice" 3
    (((KeyProvider.Create none).SetSharedKey 3 [9]).2.1) (by decide)

/-- Claim C10: the shared-key fallback is triggered by absence of a map
entry, not by emptiness of the stored key: after
`SetKey(participant_id, index, [])` with the empty byte sequence,
`ExportKey(participant_id, index)` returns the empty sequence even when
`shared_key_enabled` is true and a non-empty shared key is stored at that
index. -/
theorem C10_empty_participant_key_shadows_shared
    (kr : DefaultKeyProviderImpl) (pid : String) (idx : Int) (K2 : Key)
    (h1 : kr.shared_key_ = true)
    (h2 : mapFind kr.shared_keys_ idx = some K2) (h3 : K2 ≠ []) :
    (((kr.SetKey pid idx []).2.1).ExportKey pid idx).1 = [] := by
  simp [DefaultKeyProviderImpl.SetKey, DefaultKeyProviderImpl.ExportKey,
    mapFind_mapSet_self]

/-- Witness for C10: shared keys enabled, non-empty shared key `[9]` at
index 3, `SetKey("alice", 3, [])` — `ExportKey("alice", 3)` returns the
empty sequence, not `[9]`. -/
theorem C10_empty_participant_key_shadows_shared_witness :
    ((((((KeyProvider.Create (some ⟨true⟩)).SetSharedKey 3 [9]).2.1
          ).SetKey "alice" 3 []).2.1).ExportKey "alice" 3).1 = [] :=
  C10_empty_participant_key_shadows_shared
    (((KeyProvider.Create (some ⟨true⟩)).SetSharedKey 3 [9]).2.1)
    "alice" 3 [9] (by decide) (by decide) (by decide)

end LumenRTC
